import Mathlib

/-!
Verification of the frame-synchronization and swapchain-lifecycle subsystem
of the BOULDER rendering engine (src/boulder_cgo.cpp), as a shallow embedding.

GPU/driver calls (vkAcquireNextImageKHR, vkQueueSubmit, vkQueuePresentKHR,
vkCreateSwapchainKHR, SDL window queries, surface-capability queries, ...)
are modelled as oracle inputs supplying their results; the engine's global
state struct `g_engine` becomes an explicit `EngineState` record; every
observable synchronization action (fence waits, fence resets, ownership-table
writes, command-buffer begin, queue submit/present, resource destruction and
creation, log output) is recorded in an event trace so that ordering
properties can be stated.
-/

namespace Boulder

/-- Subset of VkResult relevant to this subsystem.  `otherError c` stands for
any failure code other than OUT_OF_DATE / SUBOPTIMAL (device lost, out of
memory, ...). -/
inductive VkResult where
  | success
  | errorOutOfDateKHR
  | suboptimalKHR
  | otherError (code : Int)
deriving DecidableEq, Repr

/-- VkExtent2D: a width/height pair. -/
structure VkExtent2D where
  width : Nat
  height : Nat
deriving DecidableEq, Repr

/-- The fields of VkSurfaceCapabilitiesKHR that boulder_cgo.cpp reads. -/
structure VkSurfaceCapabilitiesKHR where
  minImageCount : Nat
  maxImageCount : Nat
  currentExtent : VkExtent2D
  minImageExtent : VkExtent2D
  maxImageExtent : VkExtent2D
deriving DecidableEq, Repr

/-- Present modes relevant to the selection loop in boulder_cgo.cpp. -/
inductive PresentMode where
  | immediate
  | fifo
  | mailbox
  | fifoRelaxed
deriving DecidableEq, Repr

/-- MAX_FRAMES_IN_FLIGHT = 3 (boulder_cgo.cpp line 26). -/
def MAX_FRAMES_IN_FLIGHT : Nat := 3

/-- UINT32_MAX, the "undefined extent" sentinel value used by Vulkan surface
capabilities. -/
def UINT32_MAX : Nat := 4294967295

/-- std::clamp for unsigned values. -/
def cppClamp (v lo hi : Nat) : Nat :=
  if v < lo then lo else if hi < v then hi else v

/-- Observable events emitted by the engine operations, in program order.
Fences are identified by their frame-slot number (`inFlightFences[i]` is
fence `i`); `waitFence` covers every vkWaitForFences call, whichever table
the fence handle was read from. -/
inductive Event where
  | waitFence (fenceId : Nat)
  | resetFence (fenceId : Nat)
  | acquireImage (image : Nat)
  | recordImageOwner (image : Nat) (fenceId : Nat)
  | beginCommandBuffer (slot : Nat)
  | queueSubmit (slot : Nat) (fenceId : Nat)
  | queuePresent (image : Nat)
  | deviceWaitIdle
  | destroyViews
  | destroyDepth
  | destroySemaphores
  | createSwapchain
  | destroyOldSwapchain
  | createViews
  | createDepth
  | createSemaphores
  | logInfo
  | logError
deriving DecidableEq, Repr

/-- The fields of the global `g_engine` struct that the frame-lifecycle and
recreation code reads or writes.  Handle-valued fields are tracked as
booleans (null / non-null); `imagesInFlight` stores, per swapchain image, the
frame-slot number of the owning fence or `none` for VK_NULL_HANDLE;
`swapchainGeneration` counts successful vkCreateSwapchainKHR calls so that
rebuilds are observable. -/
structure EngineState where
  initialized : Bool
  swapchainNeedsRecreate : Bool
  isRecreatingSwapchain : Bool
  resizeEventDuringRecreate : Bool
  hasWindow : Bool
  hasSurface : Bool
  hasPhysicalDevice : Bool
  hasDevice : Bool
  hasSwapchain : Bool
  hasActiveCommandBuffer : Bool
  currentFrameIndex : Nat
  imagesInFlight : List (Option Nat)
  swapchainExtent : VkExtent2D
  swapchainImageCount : Nat
  swapchainGeneration : Nat
deriving DecidableEq, Repr

/-- Oracle for the one driver call boulder_begin_frame makes whose result the
control flow branches on: vkAcquireNextImageKHR (result code and the image
index it writes), plus the success of vkBeginCommandBuffer. -/
structure BeginFrameOracle where
  acquireResult : VkResult
  acquireImageIndex : Nat
  beginCommandBufferOk : Bool
deriving DecidableEq, Repr

/-- Result of boulder_begin_frame: the post state, the event trace in program
order, the C return value, and the value stored through the imageIndex out
parameter (when the acquire call wrote one). -/
structure BeginFrameResult where
  state : EngineState
  trace : List Event
  ret : Int
  imageIndex : Option Nat
deriving DecidableEq, Repr

/-- boulder_begin_frame (boulder_cgo.cpp lines 2264-2399), translated
statement by statement:
1. guard: engine not initialized / no device / no swapchain -> log error, -1;
2. swapchainNeedsRecreate set -> log info, return -2 (nothing touched);
3. vkWaitForFences on inFlightFences[currentFrameIndex];
4. vkAcquireNextImageKHR; OUT_OF_DATE/SUBOPTIMAL -> set needs-recreate flag,
   return -2 (no fence reset); any other failure -> log error, return -1;
5. if imagesInFlight[imageIndex] is non-null, vkWaitForFences on it;
6. vkResetFences on the slot's own fence;
7. record the slot's fence in imagesInFlight[imageIndex];
8. set activeCommandBuffer and begin the slot's command buffer; on
   vkBeginCommandBuffer failure, clear activeCommandBuffer and return -1. -/
def boulder_begin_frame (st : EngineState) (o : BeginFrameOracle) :
    BeginFrameResult :=
  if !(st.initialized && st.hasDevice && st.hasSwapchain) then
    ⟨st, [.logError], -1, none⟩
  else if st.swapchainNeedsRecreate then
    ⟨st, [.logInfo], -2, none⟩
  else
    let slot := st.currentFrameIndex
    let img := o.acquireImageIndex
    let t0 : List Event := [.waitFence slot, .acquireImage img]
    if o.acquireResult = .errorOutOfDateKHR || o.acquireResult = .suboptimalKHR then
      ⟨{ st with swapchainNeedsRecreate := true }, t0, -2, some img⟩
    else if o.acquireResult ≠ .success then
      ⟨st, t0 ++ [.logError], -1, some img⟩
    else
      let ownerWait : List Event :=
        match st.imagesInFlight.getD img none with
        | some f => [.waitFence f]
        | none => []
      let st1 := { st with
        imagesInFlight := st.imagesInFlight.set img (some slot) }
      let t1 := t0 ++ ownerWait ++
        [.resetFence slot, .recordImageOwner img slot, .beginCommandBuffer slot]
      if o.beginCommandBufferOk then
        ⟨{ st1 with hasActiveCommandBuffer := true }, t1, 0, some img⟩
      else
        ⟨{ st1 with hasActiveCommandBuffer := false }, t1 ++ [.logError], -1,
          some img⟩

/-- Oracle for the driver calls boulder_end_frame branches on:
vkEndCommandBuffer, vkQueueSubmit and vkQueuePresentKHR results. -/
structure EndFrameOracle where
  endCommandBufferOk : Bool
  submitResult : VkResult
  presentResult : VkResult
deriving DecidableEq, Repr

/-- Result of boulder_end_frame: post state, event trace, C return value. -/
structure EndFrameResult where
  state : EngineState
  trace : List Event
  ret : Int
deriving DecidableEq, Repr

/-- boulder_end_frame (boulder_cgo.cpp lines 2401-2483), translated
statement by statement:
1. guard: not initialized / no device / no active command buffer -> log
   error, -1;
2. vkEndCommandBuffer; failure -> log error, clear activeCommandBuffer, -1;
3. vkQueueSubmit signalling the slot's own fence; failure -> log error,
   clear activeCommandBuffer, -1;
4. vkQueuePresentKHR; OUT_OF_DATE or SUBOPTIMAL -> set the needs-recreate
   flag (frame not failed); any other failure -> log the error only;
5. clear activeCommandBuffer, advance currentFrameIndex modulo
   MAX_FRAMES_IN_FLIGHT, return 0. -/
def boulder_end_frame (st : EngineState) (imageIndex : Nat)
    (o : EndFrameOracle) : EndFrameResult :=
  if !(st.initialized && st.hasDevice && st.hasActiveCommandBuffer) then
    ⟨st, [.logError], -1⟩
  else if !o.endCommandBufferOk then
    ⟨{ st with hasActiveCommandBuffer := false }, [.logError], -1⟩
  else
    let slot := st.currentFrameIndex
    let t0 : List Event := [.queueSubmit slot slot]
    if o.submitResult ≠ .success then
      ⟨{ st with hasActiveCommandBuffer := false }, t0 ++ [.logError], -1⟩
    else
      let t1 := t0 ++ [.queuePresent imageIndex]
      let st1 := { st with
        hasActiveCommandBuffer := false,
        currentFrameIndex := (slot + 1) % MAX_FRAMES_IN_FLIGHT }
      if o.presentResult = .errorOutOfDateKHR ||
          o.presentResult = .suboptimalKHR then
        ⟨{ st1 with swapchainNeedsRecreate := true }, t1, 0⟩
      else if o.presentResult ≠ .success then
        ⟨st1, t1 ++ [.logError], 0⟩
      else
        ⟨st1, t1, 0⟩

/-- Oracle for the driver and window-system calls recreate_swapchain makes:
SDL_GetWindowSize, the surface-capability query before the rebuild, the
supported present modes, the results of the creation calls, the image count
vkGetSwapchainImagesKHR reports, and the surface-capability re-query after
the rebuild. -/
structure RecreateOracle where
  windowWidth : Nat
  windowHeight : Nat
  capabilities : VkSurfaceCapabilitiesKHR
  presentModes : List PresentMode
  createSwapchainOk : Bool
  returnedImageCount : Nat
  createImageViewsOk : Bool
  createDepthOk : Bool
  createSemaphoresOk : Bool
  capabilitiesAfter : VkSurfaceCapabilitiesKHR
deriving DecidableEq, Repr

/-- Result of recreate_swapchain: post state, event trace, C return value. -/
structure RecreateResult where
  state : EngineState
  trace : List Event
  ret : Int
deriving DecidableEq, Repr

/-- Present-mode selection loop shared by recreate_swapchain and
boulder_create_window: prefer IMMEDIATE when supported, else FIFO. -/
def choosePresentMode (modes : List PresentMode) : PresentMode :=
  if modes.contains .immediate then .immediate else .fifo

/-- Extent selection in recreate_swapchain (boulder_cgo.cpp lines 747-757):
take the capability-reported current extent; when its width is UINT32_MAX,
overwrite both dimensions with the window size clamped into the
min/max image extent range. -/
def recreate_chooseExtent (caps : VkSurfaceCapabilitiesKHR)
    (width height : Nat) : VkExtent2D :=
  if caps.currentExtent.width = UINT32_MAX then
    ⟨cppClamp width caps.minImageExtent.width caps.maxImageExtent.width,
     cppClamp height caps.minImageExtent.height caps.maxImageExtent.height⟩
  else caps.currentExtent

/-- Extent selection in boulder_create_window (boulder_cgo.cpp lines
1297-1303): take the capability-reported current extent; when its width is
UINT32_MAX, use the requested window size directly, with no clamping into
the min/max image extent range. -/
def boulder_create_window_extent (caps : VkSurfaceCapabilitiesKHR)
    (width height : Nat) : VkExtent2D :=
  if caps.currentExtent.width = UINT32_MAX then ⟨width, height⟩
  else caps.currentExtent

/-- Image-count selection (boulder_cgo.cpp lines 759-762):
minImageCount + 1, clamped to maxImageCount when the latter is non-zero. -/
def chooseImageCount (caps : VkSurfaceCapabilitiesKHR) : Nat :=
  let ic := caps.minImageCount + 1
  if caps.maxImageCount > 0 && ic > caps.maxImageCount then
    caps.maxImageCount
  else ic

/-- recreate_swapchain (boulder_cgo.cpp lines 695-891), translated statement
by statement:
1. guard: missing device/window/physical device/surface -> -1 (untouched);
2. re-entrancy guard: isRecreatingSwapchain already set -> log error,
   return 0, nothing else touched;
3. set isRecreatingSwapchain, clear resizeEventDuringRecreate;
4. vkDeviceWaitIdle; destroy old image views, depth resources and
   per-frame semaphores;
5. SDL_GetWindowSize; if either dimension is zero, log info, clear the
   re-entrancy guard and return 0 (no rebuild, needs-recreate untouched);
6. query capabilities, choose the new extent, image count, present mode;
7. vkCreateSwapchainKHR (previous chain passed as oldSwapchain); failure ->
   log error, clear guard, -1; on success destroy the old chain;
8. fetch image handles, reset imagesInFlight to all-null at the returned
   image count; rebuild views, depth resources, semaphores (each failure ->
   log error, clear guard, -1);
9. reset currentFrameIndex to 0;
10. re-query capabilities; if the current extent differs from the extent
    just chosen, set resizeEventDuringRecreate;
11. clear swapchainNeedsRecreate only when no resize event occurred during
    the rebuild, otherwise log and clear resizeEventDuringRecreate, leaving
    swapchainNeedsRecreate as it was; clear the guard and return 0. -/
def recreate_swapchain (st : EngineState) (o : RecreateOracle) :
    RecreateResult :=
  if !(st.hasDevice && st.hasWindow && st.hasPhysicalDevice && st.hasSurface)
  then
    ⟨st, [], -1⟩
  else if st.isRecreatingSwapchain then
    ⟨st, [.logError], 0⟩
  else
    let st1 := { st with
      isRecreatingSwapchain := true, resizeEventDuringRecreate := false }
    let t0 : List Event :=
      [.deviceWaitIdle, .destroyViews, .destroyDepth, .destroySemaphores]
    if o.windowWidth = 0 || o.windowHeight = 0 then
      ⟨{ st1 with isRecreatingSwapchain := false }, t0 ++ [.logInfo], 0⟩
    else
      let extent := recreate_chooseExtent o.capabilities o.windowWidth
        o.windowHeight
      let st2 := { st1 with swapchainExtent := extent }
      if !o.createSwapchainOk then
        ⟨{ st2 with isRecreatingSwapchain := false },
          t0 ++ [.logInfo, .logError], -1⟩
      else
        let destroyOld : List Event :=
          if st.hasSwapchain then [.destroyOldSwapchain] else []
        let t1 := t0 ++ [.logInfo, .createSwapchain] ++ destroyOld
        let st3 := { st2 with
          hasSwapchain := true,
          swapchainGeneration := st2.swapchainGeneration + 1,
          swapchainImageCount := o.returnedImageCount,
          imagesInFlight := List.replicate o.returnedImageCount none }
        if !o.createImageViewsOk then
          ⟨{ st3 with isRecreatingSwapchain := false },
            t1 ++ [.logError], -1⟩
        else if !o.createDepthOk then
          ⟨{ st3 with isRecreatingSwapchain := false },
            t1 ++ [.createViews, .logError], -1⟩
        else if !o.createSemaphoresOk then
          ⟨{ st3 with isRecreatingSwapchain := false },
            t1 ++ [.createViews, .createDepth, .logError], -1⟩
        else
          let st4 := { st3 with currentFrameIndex := 0 }
          let t2 := t1 ++
            [.createViews, .createDepth, .createSemaphores, .logInfo]
          let resized :=
            extent.height ≠ o.capabilitiesAfter.currentExtent.height ||
            extent.width ≠ o.capabilitiesAfter.currentExtent.width
          if resized then
            ⟨{ st4 with
                isRecreatingSwapchain := false,
                resizeEventDuringRecreate := false }, t2 ++ [.logInfo], 0⟩
          else
            ⟨{ st4 with
                isRecreatingSwapchain := false,
                swapchainNeedsRecreate := false }, t2, 0⟩

/-- boulder_render (boulder_cgo.cpp lines 1065-1127): begin the frame; when
begin reports -2 (recreation needed), run recreate_swapchain once, returning
-1 on its failure and 0 on its success (no retry loop); any other begin
failure propagates; otherwise draw (model/UI rendering touches none of the
synchronization state) and finish with boulder_end_frame. -/
def boulder_render (st : EngineState) (bo : BeginFrameOracle)
    (ro : RecreateOracle) (eo : EndFrameOracle) : EngineState × Int :=
  let b := boulder_begin_frame st bo
  if b.ret = -2 then
    let r := recreate_swapchain b.state ro
    if r.ret ≠ 0 then (r.state, -1) else (r.state, 0)
  else if b.ret ≠ 0 then (b.state, b.ret)
  else
    let e := boulder_end_frame b.state (b.imageIndex.getD 0) eo
    (e.state, e.ret)

/-- Driving loop: one boulder_render call per element of the oracle list,
with a fixed begin/end oracle.  Used to observe how recreations chain when
every post-rebuild capability re-query reports a changed extent. -/
def renderChain (bo : BeginFrameOracle) (eo : EndFrameOracle) :
    EngineState → List RecreateOracle → EngineState
  | st, [] => st
  | st, ro :: rest => renderChain bo eo (boulder_render st bo ro eo).1 rest

/-- Driving loop for whole begin/end frame cycles: returns the final state
and, per cycle, the frame-slot index the cycle used together with the event
trace of its boulder_begin_frame call. -/
def runFrames (st : EngineState) :
    List (BeginFrameOracle × EndFrameOracle) →
      EngineState × List (Nat × List Event)
  | [] => (st, [])
  | (bo, eo) :: rest =>
    let slot := st.currentFrameIndex
    let b := boulder_begin_frame st bo
    let e := boulder_end_frame b.state (b.imageIndex.getD 0) eo
    let r := runFrames e.state rest
    (r.1, (slot, b.trace) :: r.2)

/-- One whole begin/end frame cycle, state to state: boulder_begin_frame
followed by boulder_end_frame on the acquired image. -/
def stepFrame (st : EngineState)
    (p : BeginFrameOracle × EndFrameOracle) : EngineState :=
  let b := boulder_begin_frame st p.1
  (boulder_end_frame b.state (b.imageIndex.getD 0) p.2).state

/-- The engine state at the start of each cycle of a runFrames drive:
element k is the state boulder_begin_frame sees at cycle k. -/
def statesBefore (st : EngineState) :
    List (BeginFrameOracle × EndFrameOracle) → List EngineState
  | [] => []
  | p :: rest => st :: statesBefore (stepFrame st p) rest

/-- boulder_recreate_swapchain (boulder_cgo.cpp lines 2566-2574): the public
recreation request; it only raises the needs-recreate flag. -/
def boulder_recreate_swapchain (st : EngineState) : EngineState × Int :=
  if !(st.initialized && st.hasDevice) then (st, -1)
  else ({ st with swapchainNeedsRecreate := true }, 0)

/-- Specification-side extent formula (spec section 4.2): "extent =
capability-reported current extent, or, if reported undefined, the window's
pixel size clamped into [min,max]".  Written from the spec's words, for
comparison with the two source-side extent computations. -/
def spec_chooseExtent (caps : VkSurfaceCapabilitiesKHR)
    (width height : Nat) : VkExtent2D :=
  if caps.currentExtent = ⟨UINT32_MAX, UINT32_MAX⟩ then
    ⟨cppClamp width caps.minImageExtent.width caps.maxImageExtent.width,
     cppClamp height caps.minImageExtent.height caps.maxImageExtent.height⟩
  else caps.currentExtent

/-- Per-cycle success conditions on a begin/end oracle pair: acquisition and
every driver call succeed and presentation reports neither out-of-date nor
suboptimal. -/
def SuccessOracles (os : List (BeginFrameOracle × EndFrameOracle)) : Prop :=
  ∀ p ∈ os,
    p.1.acquireResult = VkResult.success ∧
    p.1.beginCommandBufferOk = true ∧
    p.2.endCommandBufferOk = true ∧
    p.2.submitResult = VkResult.success ∧
    p.2.presentResult = VkResult.success

/-- A fully initialized engine, between frames, with a 3-image swapchain and
no image owned by any fence: the state right after setup or a completed
recreation. -/
def exStateReady : EngineState :=
  { initialized := true, swapchainNeedsRecreate := false,
    isRecreatingSwapchain := false, resizeEventDuringRecreate := false,
    hasWindow := true, hasSurface := true, hasPhysicalDevice := true,
    hasDevice := true, hasSwapchain := true, hasActiveCommandBuffer := false,
    currentFrameIndex := 0,
    imagesInFlight := [none, none, none],
    swapchainExtent := ⟨800, 600⟩, swapchainImageCount := 3,
    swapchainGeneration := 0 }

/-- exStateReady with the needs-recreate flag raised. -/
def exStateNeedsRecreate : EngineState :=
  { exStateReady with swapchainNeedsRecreate := true }

/-- exStateReady mid-frame: command buffer open, image 0 owned by fence 0. -/
def exStateRecording : EngineState :=
  { exStateReady with
    hasActiveCommandBuffer := true,
    imagesInFlight := [some 0, none, none] }

/-- Begin-frame oracle: successful acquisition of a given image. -/
def exBeginOk (img : Nat) : BeginFrameOracle :=
  { acquireResult := .success, acquireImageIndex := img,
    beginCommandBufferOk := true }

/-- End-frame oracle: every call succeeds. -/
def exEndOk : EndFrameOracle :=
  { endCommandBufferOk := true, submitResult := .success,
    presentResult := .success }

/-- Recreation oracle: a healthy 800x600 rebuild whose post-rebuild
capability re-query reports a changed extent (801x600), as under a resize
storm. -/
def exRecreateResize : RecreateOracle :=
  { windowWidth := 800, windowHeight := 600,
    capabilities := ⟨2, 8, ⟨800, 600⟩, ⟨1, 1⟩, ⟨4000, 4000⟩⟩,
    presentModes := [.fifo],
    createSwapchainOk := true, returnedImageCount := 3,
    createImageViewsOk := true, createDepthOk := true,
    createSemaphoresOk := true,
    capabilitiesAfter := ⟨2, 8, ⟨801, 600⟩, ⟨1, 1⟩, ⟨4000, 4000⟩⟩ }

/-- Four successful begin/end cycles acquiring images 0, 1, 2, 0: with three
images and three frame slots, cycle 3 reuses slot 0 and re-acquires image 0,
which that slot's own fence still owns. -/
def exRunOracles : List (BeginFrameOracle × EndFrameOracle) :=
  [(exBeginOk 0, exEndOk), (exBeginOk 1, exEndOk),
   (exBeginOk 2, exEndOk), (exBeginOk 0, exEndOk)]

/-- The four-cycle run used to examine slot rotation and fence waits. -/
def exRun : EngineState × List (Nat × List Event) :=
  runFrames exStateReady exRunOracles

/-- Surface capabilities reporting the undefined-extent sentinel with a
minimum image extent of 200x200: a 100x100 window must be clamped up. -/
def exCapsSentinel : VkSurfaceCapabilitiesKHR :=
  ⟨2, 8, ⟨UINT32_MAX, UINT32_MAX⟩, ⟨200, 200⟩, ⟨4000, 4000⟩⟩

/-- Well-formedness of one begin/end cycle record (slot, begin trace) with a
prescribed own-fence wait count n: the trace opens by waiting on the slot's
own fence, closes by re-recording the slot's command buffer, and contains
exactly n waits on the slot's own fence. -/
def CycleWaitsThenRecords (c : Nat × List Event) (n : Nat) : Prop :=
  c.2.head? = some (Event.waitFence c.1) ∧
  c.2.getLast? = some (Event.beginCommandBuffer c.1) ∧
  c.2.count (Event.waitFence c.1) = n

/-! ## Theorems -/

/-- C10: whenever boulder_begin_frame is called with the needs-recreation
flag already set (on an otherwise initialized engine), it returns -2
immediately: the engine state is left completely unchanged and the trace
holds only the log message — no fence wait, no image acquisition, no fence
reset, no ownership-table write, no command-buffer begin. -/
theorem begin_frame_needsRecreate_early_return (st : EngineState)
    (o : BeginFrameOracle)
    (h1 : st.initialized = true) (h2 : st.hasDevice = true)
    (h3 : st.hasSwapchain = true) (h4 : st.swapchainNeedsRecreate = true) :
    (boulder_begin_frame st o).ret = -2 ∧
    (boulder_begin_frame st o).state = st ∧
    (boulder_begin_frame st o).trace = [Event.logInfo] := by
  simp [boulder_begin_frame, h1, h2, h3, h4]

/-- Witness for C10 at a concrete ready-but-flagged state. -/
theorem begin_frame_needsRecreate_early_return_witness :
    (boulder_begin_frame exStateNeedsRecreate (exBeginOk 0)).ret = -2 ∧
    (boulder_begin_frame exStateNeedsRecreate (exBeginOk 0)).state =
      exStateNeedsRecreate ∧
    (boulder_begin_frame exStateNeedsRecreate (exBeginOk 0)).trace =
      [Event.logInfo] :=
  begin_frame_needsRecreate_early_return exStateNeedsRecreate (exBeginOk 0)
    rfl rfl rfl rfl

/-- C2: when image acquisition reports OUT_OF_DATE or SUBOPTIMAL,
boulder_begin_frame returns -2 and sets the needs-recreate flag; nothing
else in the state changes and the trace holds no fence reset, so the slot's
fence stays in its signaled state. -/
theorem begin_frame_stale_surface (st : EngineState) (o : BeginFrameOracle)
    (h1 : st.initialized = true) (h2 : st.hasDevice = true)
    (h3 : st.hasSwapchain = true) (h4 : st.swapchainNeedsRecreate = false)
    (h5 : o.acquireResult = VkResult.errorOutOfDateKHR ∨
      o.acquireResult = VkResult.suboptimalKHR) :
    (boulder_begin_frame st o).ret = -2 ∧
    (boulder_begin_frame st o).state =
      { st with swapchainNeedsRecreate := true } ∧
    (boulder_begin_frame st o).trace =
      [Event.waitFence st.currentFrameIndex,
       Event.acquireImage o.acquireImageIndex] ∧
    ∀ f, Event.resetFence f ∉ (boulder_begin_frame st o).trace := by
  rcases h5 with h5 | h5 <;> simp [boulder_begin_frame, h1, h2, h3, h4, h5]

/-- Witness for C2 at a concrete state and an OUT_OF_DATE acquisition. -/
theorem begin_frame_stale_surface_witness :
    (boulder_begin_frame exStateReady
      ⟨VkResult.errorOutOfDateKHR, 0, true⟩).ret = -2 ∧
    (boulder_begin_frame exStateReady
      ⟨VkResult.errorOutOfDateKHR, 0, true⟩).state =
      { exStateReady with swapchainNeedsRecreate := true } ∧
    (boulder_begin_frame exStateReady
      ⟨VkResult.errorOutOfDateKHR, 0, true⟩).trace =
      [Event.waitFence 0, Event.acquireImage 0] ∧
    ∀ f, Event.resetFence f ∉
      (boulder_begin_frame exStateReady
        ⟨VkResult.errorOutOfDateKHR, 0, true⟩).trace :=
  begin_frame_stale_surface exStateReady ⟨VkResult.errorOutOfDateKHR, 0, true⟩
    rfl rfl rfl rfl (Or.inl rfl)

/-- C6: a recreate_swapchain call arriving while the re-entrancy guard
isRecreatingSwapchain is set returns 0 without doing anything: the state
(needs-recreation flag included) is exactly the input state and the trace is
the error log alone — no destruction, no rebuild. -/
theorem recreate_swapchain_reentrant_noop (st : EngineState)
    (o : RecreateOracle)
    (h1 : st.hasDevice = true) (h2 : st.hasWindow = true)
    (h3 : st.hasPhysicalDevice = true) (h4 : st.hasSurface = true)
    (h5 : st.isRecreatingSwapchain = true) :
    recreate_swapchain st o = ⟨st, [Event.logError], 0⟩ := by
  simp [recreate_swapchain, h1, h2, h3, h4, h5]

/-- Witness for C6 at a concrete mid-recreation state. -/
theorem recreate_swapchain_reentrant_noop_witness :
    recreate_swapchain { exStateReady with isRecreatingSwapchain := true }
      exRecreateResize =
      ⟨{ exStateReady with isRecreatingSwapchain := true },
        [Event.logError], 0⟩ :=
  recreate_swapchain_reentrant_noop
    { exStateReady with isRecreatingSwapchain := true } exRecreateResize
    rfl rfl rfl rfl rfl

/-- C5: recreate_swapchain called while the window reports a zero dimension
returns 0 (success) without building a chain: the swapchain generation,
image count, ownership table and extent are unchanged, no creation event is
emitted, the re-entrancy guard is released, and the needs-recreation flag
(true at entry) is still true, so recreation is retried once dimensions
recover. -/
theorem recreate_swapchain_minimized (st : EngineState) (o : RecreateOracle)
    (h1 : st.hasDevice = true) (h2 : st.hasWindow = true)
    (h3 : st.hasPhysicalDevice = true) (h4 : st.hasSurface = true)
    (h5 : st.isRecreatingSwapchain = false)
    (h6 : st.swapchainNeedsRecreate = true)
    (h7 : o.windowWidth = 0 ∨ o.windowHeight = 0) :
    (recreate_swapchain st o).ret = 0 ∧
    (recreate_swapchain st o).state.swapchainNeedsRecreate = true ∧
    (recreate_swapchain st o).state.swapchainGeneration =
      st.swapchainGeneration ∧
    (recreate_swapchain st o).state.swapchainImageCount =
      st.swapchainImageCount ∧
    (recreate_swapchain st o).state.imagesInFlight = st.imagesInFlight ∧
    (recreate_swapchain st o).state.swapchainExtent = st.swapchainExtent ∧
    (recreate_swapchain st o).state.isRecreatingSwapchain = false ∧
    Event.createSwapchain ∉ (recreate_swapchain st o).trace ∧
    Event.createViews ∉ (recreate_swapchain st o).trace := by
  rcases h7 with h7 | h7 <;>
    simp [recreate_swapchain, h1, h2, h3, h4, h5, h6, h7]

/-- Witness for C5 at a concrete flagged state and a minimized window. -/
theorem recreate_swapchain_minimized_witness :
    (recreate_swapchain exStateNeedsRecreate
      { exRecreateResize with windowWidth := 0 }).ret = 0 ∧
    (recreate_swapchain exStateNeedsRecreate
      { exRecreateResize with windowWidth := 0 }).state.swapchainNeedsRecreate
      = true ∧
    (recreate_swapchain exStateNeedsRecreate
      { exRecreateResize with windowWidth := 0 }).state.swapchainGeneration =
      exStateNeedsRecreate.swapchainGeneration ∧
    (recreate_swapchain exStateNeedsRecreate
      { exRecreateResize with windowWidth := 0 }).state.swapchainImageCount =
      exStateNeedsRecreate.swapchainImageCount ∧
    (recreate_swapchain exStateNeedsRecreate
      { exRecreateResize with windowWidth := 0 }).state.imagesInFlight =
      exStateNeedsRecreate.imagesInFlight ∧
    (recreate_swapchain exStateNeedsRecreate
      { exRecreateResize with windowWidth := 0 }).state.swapchainExtent =
      exStateNeedsRecreate.swapchainExtent ∧
    (recreate_swapchain exStateNeedsRecreate
      { exRecreateResize with windowWidth := 0 }).state.isRecreatingSwapchain
      = false ∧
    Event.createSwapchain ∉
      (recreate_swapchain exStateNeedsRecreate
        { exRecreateResize with windowWidth := 0 }).trace ∧
    Event.createViews ∉
      (recreate_swapchain exStateNeedsRecreate
        { exRecreateResize with windowWidth := 0 }).trace :=
  recreate_swapchain_minimized exStateNeedsRecreate
    { exRecreateResize with windowWidth := 0 }
    rfl rfl rfl rfl rfl rfl (Or.inl rfl)

/-- C7: when submission succeeds and presentation reports OUT_OF_DATE or
SUBOPTIMAL, boulder_end_frame sets the needs-recreate flag but still returns
0: the submit event is in the trace, no error is logged, and the frame index
advances as for any completed frame. -/
theorem end_frame_present_stale (st : EngineState) (img : Nat)
    (o : EndFrameOracle)
    (h1 : st.initialized = true) (h2 : st.hasDevice = true)
    (h3 : st.hasActiveCommandBuffer = true)
    (h4 : o.endCommandBufferOk = true)
    (h5 : o.submitResult = VkResult.success)
    (h6 : o.presentResult = VkResult.errorOutOfDateKHR ∨
      o.presentResult = VkResult.suboptimalKHR) :
    (boulder_end_frame st img o).ret = 0 ∧
    (boulder_end_frame st img o).state.swapchainNeedsRecreate = true ∧
    (boulder_end_frame st img o).state.currentFrameIndex =
      (st.currentFrameIndex + 1) % MAX_FRAMES_IN_FLIGHT ∧
    (boulder_end_frame st img o).trace =
      [Event.queueSubmit st.currentFrameIndex st.currentFrameIndex,
       Event.queuePresent img] ∧
    Event.logError ∉ (boulder_end_frame st img o).trace := by
  rcases h6 with h6 | h6 <;>
    simp [boulder_end_frame, h1, h2, h3, h4, h5, h6]

/-- Witness for C7 at a concrete mid-frame state and a SUBOPTIMAL present. -/
theorem end_frame_present_stale_witness :
    (boulder_end_frame exStateRecording 0
      ⟨true, VkResult.success, VkResult.suboptimalKHR⟩).ret = 0 ∧
    (boulder_end_frame exStateRecording 0
      ⟨true, VkResult.success,
        VkResult.suboptimalKHR⟩).state.swapchainNeedsRecreate = true ∧
    (boulder_end_frame exStateRecording 0
      ⟨true, VkResult.success,
        VkResult.suboptimalKHR⟩).state.currentFrameIndex =
      (exStateRecording.currentFrameIndex + 1) % MAX_FRAMES_IN_FLIGHT ∧
    (boulder_end_frame exStateRecording 0
      ⟨true, VkResult.success, VkResult.suboptimalKHR⟩).trace =
      [Event.queueSubmit exStateRecording.currentFrameIndex
        exStateRecording.currentFrameIndex, Event.queuePresent 0] ∧
    Event.logError ∉
      (boulder_end_frame exStateRecording 0
        ⟨true, VkResult.success, VkResult.suboptimalKHR⟩).trace :=
  end_frame_present_stale exStateRecording 0
    ⟨true, VkResult.success, VkResult.suboptimalKHR⟩
    rfl rfl rfl rfl rfl (Or.inr rfl)

/-- C1: when the ownership table lists fence f for the acquired image, the
begin-frame trace starts with exactly [wait own fence, acquire, wait f,
reset own fence, record new owner]: the wait on f comes strictly before the
slot's fence reset, no fence reset happens before that wait, and the new
owner is recorded only after the reset. -/
theorem begin_frame_owner_wait_before_reset (st : EngineState)
    (o : BeginFrameOracle) (f : Nat)
    (h1 : st.initialized = true) (h2 : st.hasDevice = true)
    (h3 : st.hasSwapchain = true) (h4 : st.swapchainNeedsRecreate = false)
    (h5 : o.acquireResult = VkResult.success)
    (h6 : st.imagesInFlight.getD o.acquireImageIndex none = some f) :
    (boulder_begin_frame st o).trace.take 5 =
      [Event.waitFence st.currentFrameIndex,
       Event.acquireImage o.acquireImageIndex,
       Event.waitFence f,
       Event.resetFence st.currentFrameIndex,
       Event.recordImageOwner o.acquireImageIndex st.currentFrameIndex] ∧
    ∀ g, Event.resetFence g ∉ (boulder_begin_frame st o).trace.take 2 := by
  have h6' : st.imagesInFlight[o.acquireImageIndex]?.getD none = some f := by
    simpa [List.getD_eq_getElem?_getD] using h6
  by_cases hb : o.beginCommandBufferOk <;>
    simp [boulder_begin_frame, h1, h2, h3, h4, h5, h6', hb]

/-- Witness for C1: image 0 is owned by fence 1 while slot 0 acquires it. -/
theorem begin_frame_owner_wait_before_reset_witness :
    (boulder_begin_frame
      { exStateReady with imagesInFlight := [some 1, none, none] }
      (exBeginOk 0)).trace.take 5 =
      [Event.waitFence 0, Event.acquireImage 0, Event.waitFence 1,
       Event.resetFence 0, Event.recordImageOwner 0 0] ∧
    ∀ g, Event.resetFence g ∉
      (boulder_begin_frame
        { exStateReady with imagesInFlight := [some 1, none, none] }
        (exBeginOk 0)).trace.take 2 := by
  have h := begin_frame_owner_wait_before_reset
    { exStateReady with imagesInFlight := [some 1, none, none] }
    (exBeginOk 0) 1 rfl rfl rfl rfl rfl (by decide)
  exact h

/-- C3 counterexample: a presentation failure that is neither out-of-date
nor suboptimal (here error code -4, device lost) is logged, yet
boulder_end_frame still returns 0 — there is no terminal error result for
the caller, contrary to the claim. -/
theorem end_frame_present_failure_not_terminal :
    (boulder_end_frame exStateRecording 0
      ⟨true, VkResult.success, VkResult.otherError (-4)⟩).ret = 0 ∧
    Event.logError ∈
      (boulder_end_frame exStateRecording 0
        ⟨true, VkResult.success, VkResult.otherError (-4)⟩).trace := by
  decide

/-- C3 amended: an acquisition failure other than out-of-date/suboptimal in
boulder_begin_frame is reported through the logger and returns the terminal
result -1, with no retry (one acquire call) and no state change; a
presentation failure other than out-of-date/suboptimal in boulder_end_frame
is reported through the logger and not retried (one present call), but the
function still returns 0 rather than a terminal error, and the
needs-recreate flag is not raised. -/
theorem terminal_failure_reporting (st st2 : EngineState)
    (o : BeginFrameOracle) (o2 : EndFrameOracle) (img : Nat) (c c2 : Int)
    (hb1 : st.initialized = true) (hb2 : st.hasDevice = true)
    (hb3 : st.hasSwapchain = true)
    (hb4 : st.swapchainNeedsRecreate = false)
    (hb5 : o.acquireResult = VkResult.otherError c)
    (he1 : st2.initialized = true) (he2 : st2.hasDevice = true)
    (he3 : st2.hasActiveCommandBuffer = true)
    (he4 : o2.endCommandBufferOk = true)
    (he5 : o2.submitResult = VkResult.success)
    (he6 : o2.presentResult = VkResult.otherError c2) :
    (boulder_begin_frame st o).ret = -1 ∧
    (boulder_begin_frame st o).state = st ∧
    Event.logError ∈ (boulder_begin_frame st o).trace ∧
    ((boulder_begin_frame st o).trace.count
      (Event.acquireImage o.acquireImageIndex)) = 1 ∧
    (boulder_end_frame st2 img o2).ret = 0 ∧
    Event.logError ∈ (boulder_end_frame st2 img o2).trace ∧
    ((boulder_end_frame st2 img o2).trace.count (Event.queuePresent img)) = 1 ∧
    (boulder_end_frame st2 img o2).state.swapchainNeedsRecreate =
      st2.swapchainNeedsRecreate := by
  simp [boulder_begin_frame, boulder_end_frame, hb1, hb2, hb3, hb4, hb5,
    he1, he2, he3, he4, he5, he6, List.count_cons]

/-- Witness for the amended C3 at concrete states: an acquisition device
loss and a presentation device loss. -/
theorem terminal_failure_reporting_witness :
    (boulder_begin_frame exStateReady
      ⟨VkResult.otherError (-4), 0, true⟩).ret = -1 ∧
    (boulder_begin_frame exStateReady
      ⟨VkResult.otherError (-4), 0, true⟩).state = exStateReady ∧
    Event.logError ∈
      (boulder_begin_frame exStateReady
        ⟨VkResult.otherError (-4), 0, true⟩).trace ∧
    ((boulder_begin_frame exStateReady
      ⟨VkResult.otherError (-4), 0, true⟩).trace.count
        (Event.acquireImage 0)) = 1 ∧
    (boulder_end_frame exStateRecording 1
      ⟨true, VkResult.success, VkResult.otherError (-3)⟩).ret = 0 ∧
    Event.logError ∈
      (boulder_end_frame exStateRecording 1
        ⟨true, VkResult.success, VkResult.otherError (-3)⟩).trace ∧
    ((boulder_end_frame exStateRecording 1
      ⟨true, VkResult.success, VkResult.otherError (-3)⟩).trace.count
        (Event.queuePresent 1)) = 1 ∧
    (boulder_end_frame exStateRecording 1
      ⟨true, VkResult.success,
        VkResult.otherError (-3)⟩).state.swapchainNeedsRecreate =
      exStateRecording.swapchainNeedsRecreate :=
  terminal_failure_reporting exStateReady exStateRecording
    ⟨VkResult.otherError (-4), 0, true⟩
    ⟨true, VkResult.success, VkResult.otherError (-3)⟩ 1 (-4) (-3)
    rfl rfl rfl rfl rfl rfl rfl rfl rfl rfl rfl

/-- C8 counterexample: with capabilities reporting the undefined-extent
sentinel, a minimum image extent of 200x200 and a 100x100 window,
boulder_create_window takes the raw window size 100x100 while the spec
formula requires clamping into [min,max], giving 200x200 — initial creation
does not clamp. -/
theorem create_window_extent_unclamped :
    boulder_create_window_extent exCapsSentinel 100 100 = ⟨100, 100⟩ ∧
    spec_chooseExtent exCapsSentinel 100 100 = ⟨200, 200⟩ ∧
    boulder_create_window_extent exCapsSentinel 100 100 ≠
      spec_chooseExtent exCapsSentinel 100 100 := by
  decide

/-- C8 amended: at recreation the new swapchain extent equals the
capability-reported current extent or, when the sentinel is reported, the
window size clamped into [min,max] (the spec formula); at initial creation
in boulder_create_window the extent equals the reported current extent or,
when the sentinel is reported, the raw window size with no clamping.
Capabilities are assumed Vulkan-conformant: an undefined width implies an
undefined height. -/
theorem swapchain_extent_selection (st : EngineState) (o : RecreateOracle)
    (caps : VkSurfaceCapabilitiesKHR) (w h : Nat)
    (h1 : st.hasDevice = true) (h2 : st.hasWindow = true)
    (h3 : st.hasPhysicalDevice = true) (h4 : st.hasSurface = true)
    (h5 : st.isRecreatingSwapchain = false)
    (h6 : o.windowWidth ≠ 0) (h7 : o.windowHeight ≠ 0)
    (h8 : o.createSwapchainOk = true)
    (h9 : o.createImageViewsOk = true) (h10 : o.createDepthOk = true)
    (h11 : o.createSemaphoresOk = true)
    (hconf : o.capabilities.currentExtent.width = UINT32_MAX →
      o.capabilities.currentExtent.height = UINT32_MAX)
    (hconf2 : caps.currentExtent.width = UINT32_MAX →
      caps.currentExtent.height = UINT32_MAX) :
    (recreate_swapchain st o).state.swapchainExtent =
      spec_chooseExtent o.capabilities o.windowWidth o.windowHeight ∧
    boulder_create_window_extent caps w h =
      (if caps.currentExtent = ⟨UINT32_MAX, UINT32_MAX⟩ then
        (⟨w, h⟩ : VkExtent2D) else caps.currentExtent) := by
  have hext : ∀ (cs : VkSurfaceCapabilitiesKHR),
      (cs.currentExtent.width = UINT32_MAX →
        cs.currentExtent.height = UINT32_MAX) →
      ((cs.currentExtent = ⟨UINT32_MAX, UINT32_MAX⟩) ↔
        cs.currentExtent.width = UINT32_MAX) := by
    intro cs hc
    constructor
    · intro hce
      rw [hce]
    · intro hw
      have hh := hc hw
      have heta : cs.currentExtent =
          ⟨cs.currentExtent.width, cs.currentExtent.height⟩ := rfl
      rw [heta, hw, hh]
  constructor
  · have hre : recreate_chooseExtent o.capabilities o.windowWidth
        o.windowHeight =
        spec_chooseExtent o.capabilities o.windowWidth o.windowHeight := by
      unfold recreate_chooseExtent spec_chooseExtent
      by_cases hw : o.capabilities.currentExtent.width = UINT32_MAX
      · simp [hw, (hext o.capabilities hconf).mpr hw]
      · have : ¬ o.capabilities.currentExtent = ⟨UINT32_MAX, UINT32_MAX⟩ :=
          fun hc => hw ((hext o.capabilities hconf).mp hc)
        simp [hw, this]
    rw [← hre]
    unfold recreate_swapchain
    simp [h1, h2, h3, h4, h5, h6, h7, h8, h9, h10, h11]
    split <;> rfl
  · unfold boulder_create_window_extent
    by_cases hw : caps.currentExtent.width = UINT32_MAX
    · simp [hw, (hext caps hconf2).mpr hw]
    · have : ¬ caps.currentExtent = ⟨UINT32_MAX, UINT32_MAX⟩ :=
        fun hc => hw ((hext caps hconf2).mp hc)
      simp [hw, this]

/-- Witness for the amended C8: a concrete recreation with a defined extent
and a concrete sentinel-reporting initial creation. -/
theorem swapchain_extent_selection_witness :
    (recreate_swapchain exStateNeedsRecreate exRecreateResize).state.swapchainExtent =
      spec_chooseExtent exRecreateResize.capabilities 800 600 ∧
    boulder_create_window_extent exCapsSentinel 100 100 =
      (if exCapsSentinel.currentExtent = ⟨UINT32_MAX, UINT32_MAX⟩ then
        (⟨100, 100⟩ : VkExtent2D) else exCapsSentinel.currentExtent) :=
  swapchain_extent_selection exStateNeedsRecreate exRecreateResize
    exCapsSentinel 100 100 rfl rfl rfl rfl rfl (by decide) (by decide) rfl
    rfl rfl rfl (by decide) (by decide)

/-- One boulder_render call on the flagged example state performs exactly
one full recreation (generation +1) and, because the post-rebuild re-query
reports a changed extent, leaves the needs-recreation flag set. -/
theorem renderChain_resize_step (g : Nat) :
    boulder_render { exStateNeedsRecreate with swapchainGeneration := g }
      (exBeginOk 0) exRecreateResize exEndOk =
      ({ exStateNeedsRecreate with swapchainGeneration := g + 1 }, 0) := rfl

/-- Driving n boulder_render calls under a permanent resize storm performs n
full recreations. -/
theorem renderChain_resize_replicate (n : Nat) : ∀ g,
    renderChain (exBeginOk 0) exEndOk
      { exStateNeedsRecreate with swapchainGeneration := g }
      (List.replicate n exRecreateResize) =
      { exStateNeedsRecreate with swapchainGeneration := g + n } := by
  induction n with
  | zero => intro g; simp [renderChain]
  | succ n ih =>
      intro g
      rw [List.replicate_succ]
      simp only [renderChain, renderChain_resize_step]
      rw [ih (g + 1)]
      have hg : g + 1 + n = g + (n + 1) := by omega
      rw [hg]

/-- C4 counterexample: under a resize storm (every post-rebuild capability
re-query reports a changed extent) the caller-side loop performs 32 full
chained recreations and the needs-recreation flag is still set afterwards,
so the chained repetition is not bounded by any small constant retry cap —
no cap exists in the code. -/
theorem recreate_chain_exceeds_small_cap :
    (renderChain (exBeginOk 0) exEndOk exStateNeedsRecreate
      (List.replicate 32 exRecreateResize)).swapchainGeneration = 32 ∧
    (renderChain (exBeginOk 0) exEndOk exStateNeedsRecreate
      (List.replicate 32 exRecreateResize)).swapchainNeedsRecreate = true := by
  set_option maxRecDepth 10000 in decide

/-- C4 amended: when the post-rebuild capability re-query reports a changed
extent, recreate_swapchain returns 0 and leaves the needs-recreation flag
set, so the caller immediately recreates again; but the chained repetition
is not bounded by any retry cap — for every n, n boulder_render calls under
a permanent resize storm perform n full recreations and leave the flag still
set (each recreation is a single non-recursive call; only the chain is
unbounded). -/
theorem recreate_resize_keeps_flag_unbounded (st : EngineState)
    (o : RecreateOracle) (n : Nat)
    (h1 : st.hasDevice = true) (h2 : st.hasWindow = true)
    (h3 : st.hasPhysicalDevice = true) (h4 : st.hasSurface = true)
    (h5 : st.isRecreatingSwapchain = false)
    (h6 : o.windowWidth ≠ 0) (h7 : o.windowHeight ≠ 0)
    (h8 : o.createSwapchainOk = true)
    (h9 : o.createImageViewsOk = true) (h10 : o.createDepthOk = true)
    (h11 : o.createSemaphoresOk = true)
    (h12 : st.swapchainNeedsRecreate = true)
    (h13 : (recreate_chooseExtent o.capabilities o.windowWidth
        o.windowHeight).height ≠ o.capabilitiesAfter.currentExtent.height ∨
      (recreate_chooseExtent o.capabilities o.windowWidth
        o.windowHeight).width ≠ o.capabilitiesAfter.currentExtent.width) :
    (recreate_swapchain st o).ret = 0 ∧
    (recreate_swapchain st o).state.swapchainNeedsRecreate = true ∧
    (renderChain (exBeginOk 0) exEndOk exStateNeedsRecreate
      (List.replicate n exRecreateResize)).swapchainGeneration = n ∧
    (renderChain (exBeginOk 0) exEndOk exStateNeedsRecreate
      (List.replicate n exRecreateResize)).swapchainNeedsRecreate = true := by
  have hchain := renderChain_resize_replicate n 0
  have h0 : ({ exStateNeedsRecreate with swapchainGeneration := 0 } :
      EngineState) = exStateNeedsRecreate := rfl
  rw [h0] at hchain
  refine ⟨?_, ?_, ?_, ?_⟩
  · unfold recreate_swapchain
    rcases h13 with h | h <;>
      simp [h1, h2, h3, h4, h5, h6, h7, h8, h9, h10, h11, h]
  · unfold recreate_swapchain
    rcases h13 with h | h <;>
      simp [h1, h2, h3, h4, h5, h6, h7, h8, h9, h10, h11, h12, h]
  · rw [hchain]
    simp
  · rw [hchain]
    rfl

/-- Witness for the amended C4 at the concrete resize-storm environment and
n = 32. -/
theorem recreate_resize_keeps_flag_unbounded_witness :
    (recreate_swapchain exStateNeedsRecreate exRecreateResize).ret = 0 ∧
    (recreate_swapchain exStateNeedsRecreate
      exRecreateResize).state.swapchainNeedsRecreate = true ∧
    (renderChain (exBeginOk 0) exEndOk exStateNeedsRecreate
      (List.replicate 32 exRecreateResize)).swapchainGeneration = 32 ∧
    (renderChain (exBeginOk 0) exEndOk exStateNeedsRecreate
      (List.replicate 32 exRecreateResize)).swapchainNeedsRecreate = true :=
  recreate_resize_keeps_flag_unbounded exStateNeedsRecreate exRecreateResize
    32 rfl rfl rfl rfl rfl (by decide) (by decide) rfl rfl rfl rfl rfl
    (by decide)

/-- Fully successful boulder_begin_frame call, made explicit: the ownership
table gains the slot's fence for the acquired image, the command buffer
opens, and the trace is wait-own-fence, acquire, optional ownership wait,
reset, record, begin. -/
theorem begin_frame_success (st : EngineState) (bo : BeginFrameOracle)
    (h1 : st.initialized = true) (h2 : st.hasDevice = true)
    (h3 : st.hasSwapchain = true) (h4 : st.swapchainNeedsRecreate = false)
    (ha : bo.acquireResult = VkResult.success)
    (hb : bo.beginCommandBufferOk = true) :
    boulder_begin_frame st bo =
      ⟨{ st with
          imagesInFlight := st.imagesInFlight.set bo.acquireImageIndex
            (some st.currentFrameIndex),
          hasActiveCommandBuffer := true },
       [Event.waitFence st.currentFrameIndex,
        Event.acquireImage bo.acquireImageIndex] ++
         (match st.imagesInFlight.getD bo.acquireImageIndex none with
          | some f => [Event.waitFence f]
          | none => []) ++
         [Event.resetFence st.currentFrameIndex,
          Event.recordImageOwner bo.acquireImageIndex st.currentFrameIndex,
          Event.beginCommandBuffer st.currentFrameIndex],
       0, some bo.acquireImageIndex⟩ := by
  simp [boulder_begin_frame, h1, h2, h3, h4, ha, hb]

/-- Fully successful boulder_end_frame call, made explicit: submit and
present, close the command buffer, advance the frame index modulo
MAX_FRAMES_IN_FLIGHT. -/
theorem end_frame_success (st : EngineState) (img : Nat)
    (eo : EndFrameOracle)
    (h1 : st.initialized = true) (h2 : st.hasDevice = true)
    (h3 : st.hasActiveCommandBuffer = true)
    (he : eo.endCommandBufferOk = true)
    (hs : eo.submitResult = VkResult.success)
    (hp : eo.presentResult = VkResult.success) :
    boulder_end_frame st img eo =
      ⟨{ st with
          hasActiveCommandBuffer := false,
          currentFrameIndex :=
            (st.currentFrameIndex + 1) % MAX_FRAMES_IN_FLIGHT },
       [Event.queueSubmit st.currentFrameIndex st.currentFrameIndex,
        Event.queuePresent img], 0⟩ := by
  simp [boulder_end_frame, h1, h2, h3, he, hs, hp]

/-- One fully successful begin/end cycle at the head of a runFrames driving
list, made explicit. -/
theorem runFrames_cons (st : EngineState) (bo : BeginFrameOracle)
    (eo : EndFrameOracle) (rest : List (BeginFrameOracle × EndFrameOracle))
    (h1 : st.initialized = true) (h2 : st.hasDevice = true)
    (h3 : st.hasSwapchain = true) (h4 : st.swapchainNeedsRecreate = false)
    (ha : bo.acquireResult = VkResult.success)
    (hb : bo.beginCommandBufferOk = true)
    (he : eo.endCommandBufferOk = true)
    (hs : eo.submitResult = VkResult.success)
    (hp : eo.presentResult = VkResult.success) :
    runFrames st ((bo, eo) :: rest) =
      ((runFrames { st with
          imagesInFlight := st.imagesInFlight.set bo.acquireImageIndex
            (some st.currentFrameIndex),
          hasActiveCommandBuffer := false,
          currentFrameIndex :=
            (st.currentFrameIndex + 1) % MAX_FRAMES_IN_FLIGHT } rest).1,
       (st.currentFrameIndex,
        [Event.waitFence st.currentFrameIndex,
         Event.acquireImage bo.acquireImageIndex] ++
          (match st.imagesInFlight.getD bo.acquireImageIndex none with
           | some f => [Event.waitFence f]
           | none => []) ++
          [Event.resetFence st.currentFrameIndex,
           Event.recordImageOwner bo.acquireImageIndex st.currentFrameIndex,
           Event.beginCommandBuffer st.currentFrameIndex]) ::
        (runFrames { st with
          imagesInFlight := st.imagesInFlight.set bo.acquireImageIndex
            (some st.currentFrameIndex),
          hasActiveCommandBuffer := false,
          currentFrameIndex :=
            (st.currentFrameIndex + 1) % MAX_FRAMES_IN_FLIGHT } rest).2) := by
  have hB := begin_frame_success st bo h1 h2 h3 h4 ha hb
  simp only [runFrames, hB]
  have hE := end_frame_success
    { st with
      imagesInFlight := st.imagesInFlight.set bo.acquireImageIndex
        (some st.currentFrameIndex),
      hasActiveCommandBuffer := true }
    bo.acquireImageIndex eo h1 h2 rfl he hs hp
  simp only [Option.getD_some, hE]

/-- The begin trace of a fully successful cycle satisfies
CycleWaitsThenRecords with the exact own-fence wait count: two waits when
the ownership-table entry for the acquired image is the slot's own fence,
one wait otherwise. -/
theorem cycle_trace_facts (i img : Nat) (ow : Option Nat) :
    CycleWaitsThenRecords (i,
      [Event.waitFence i, Event.acquireImage img] ++
        (match ow with
         | some f => [Event.waitFence f]
         | none => []) ++
        [Event.resetFence i, Event.recordImageOwner img i,
         Event.beginCommandBuffer i])
      (if ow = some i then 2 else 1) := by
  unfold CycleWaitsThenRecords
  cases ow with
  | none =>
      refine ⟨rfl, ?_, ?_⟩
      · simp
      · simp [List.count_cons, List.count_append]
  | some f =>
      refine ⟨rfl, ?_, ?_⟩
      · simp
      · by_cases hf : f = i
        · simp [hf, List.count_cons, List.count_append,
            List.count_singleton]
        · simp [List.count_cons, List.count_append, List.count_singleton,
            hf]

/-- statesBefore records exactly one state per driven cycle. -/
theorem statesBefore_length (os : List (BeginFrameOracle × EndFrameOracle)) :
    ∀ st : EngineState, (statesBefore st os).length = os.length := by
  induction os with
  | nil => intro st; rfl
  | cons p rest ih =>
      intro st
      simp [statesBefore, ih]

/-- List.getD does not depend on the default below the length. -/
theorem getD_default_irrel {α : Type} (l : List α) (k : Nat)
    (h : k < l.length) (d1 d2 : α) : l.getD k d1 = l.getD k d2 := by
  simp [List.getD_eq_getElem?_getD, List.getElem?_eq_getElem h]

/-- A fully successful cycle advances the state exactly as the runFrames
driver does: ownership entry written, command buffer closed again, frame
index advanced modulo MAX_FRAMES_IN_FLIGHT. -/
theorem stepFrame_success (st : EngineState) (bo : BeginFrameOracle)
    (eo : EndFrameOracle)
    (h1 : st.initialized = true) (h2 : st.hasDevice = true)
    (h3 : st.hasSwapchain = true) (h4 : st.swapchainNeedsRecreate = false)
    (ha : bo.acquireResult = VkResult.success)
    (hb : bo.beginCommandBufferOk = true)
    (he : eo.endCommandBufferOk = true)
    (hs : eo.submitResult = VkResult.success)
    (hp : eo.presentResult = VkResult.success) :
    stepFrame st (bo, eo) =
      { st with
        imagesInFlight := st.imagesInFlight.set bo.acquireImageIndex
          (some st.currentFrameIndex),
        hasActiveCommandBuffer := false,
        currentFrameIndex :=
          (st.currentFrameIndex + 1) % MAX_FRAMES_IN_FLIGHT } := by
  unfold stepFrame
  rw [begin_frame_success st bo h1 h2 h3 h4 ha hb]
  simp only [Option.getD_some]
  rw [end_frame_success
    { st with
      imagesInFlight := st.imagesInFlight.set bo.acquireImageIndex
        (some st.currentFrameIndex),
      hasActiveCommandBuffer := true }
    bo.acquireImageIndex eo h1 h2 rfl he hs hp]

/-- Slot rotation and per-cycle fence-wait discipline for any run of fully
successful begin/end cycles, generalized over the starting frame index: the
slot's own fence is waited on exactly twice when the ownership table at the
cycle's start lists that very fence for the acquired image, exactly once
otherwise. -/
theorem runFrames_slots (os : List (BeginFrameOracle × EndFrameOracle)) :
    ∀ st : EngineState, st.initialized = true → st.hasDevice = true →
    st.hasSwapchain = true → st.swapchainNeedsRecreate = false →
    st.currentFrameIndex < MAX_FRAMES_IN_FLIGHT → SuccessOracles os →
    ∀ k, k < os.length →
      ((runFrames st os).2.getD k (0, [])).1 =
        (st.currentFrameIndex + k) % MAX_FRAMES_IN_FLIGHT ∧
      CycleWaitsThenRecords ((runFrames st os).2.getD k (0, []))
        (if ((statesBefore st os).getD k st).imagesInFlight.getD
            ((os.getD k (exBeginOk 0, exEndOk)).1.acquireImageIndex) none =
            some ((st.currentFrameIndex + k) % MAX_FRAMES_IN_FLIGHT)
          then 2 else 1) := by
  induction os with
  | nil =>
      intro st _ _ _ _ _ _ k hk
      simp at hk
  | cons p rest ih =>
      intro st h1 h2 h3 h4 hidx hos k hk
      obtain ⟨bo, eo⟩ := p
      obtain ⟨ha, hb, he, hs, hp⟩ := hos (bo, eo) (List.mem_cons_self _ _)
      rw [runFrames_cons st bo eo rest h1 h2 h3 h4 ha hb he hs hp]
      have hstep := stepFrame_success st bo eo h1 h2 h3 h4 ha hb he hs hp
      cases k with
      | zero =>
          constructor
          · simpa using (Nat.mod_eq_of_lt hidx).symm
          · have hmod : st.currentFrameIndex % MAX_FRAMES_IN_FLIGHT =
                st.currentFrameIndex := Nat.mod_eq_of_lt hidx
            have hfacts := cycle_trace_facts st.currentFrameIndex
              bo.acquireImageIndex
              (st.imagesInFlight.getD bo.acquireImageIndex none)
            simpa [statesBefore, hmod] using hfacts
      | succ k =>
          have hos' : SuccessOracles rest := by
            intro q hq
            exact hos q (List.mem_cons_of_mem _ hq)
          have hlt : (st.currentFrameIndex + 1) % MAX_FRAMES_IN_FLIGHT <
              MAX_FRAMES_IN_FLIGHT := by
            unfold MAX_FRAMES_IN_FLIGHT
            omega
          have hk' : k < rest.length := by
            simpa using hk
          have hrec := ih { st with
              imagesInFlight := st.imagesInFlight.set bo.acquireImageIndex
                (some st.currentFrameIndex),
              hasActiveCommandBuffer := false,
              currentFrameIndex :=
                (st.currentFrameIndex + 1) % MAX_FRAMES_IN_FLIGHT }
            h1 h2 h3 h4 hlt hos' k hk'
          have hmod2 : ({ st with
              imagesInFlight := st.imagesInFlight.set bo.acquireImageIndex
                (some st.currentFrameIndex),
              hasActiveCommandBuffer := false,
              currentFrameIndex :=
                (st.currentFrameIndex + 1) % MAX_FRAMES_IN_FLIGHT } :
              EngineState).currentFrameIndex + k =
              (st.currentFrameIndex + 1) % MAX_FRAMES_IN_FLIGHT + k := rfl
          have hmod3 : ((st.currentFrameIndex + 1) % MAX_FRAMES_IN_FLIGHT +
              k) % MAX_FRAMES_IN_FLIGHT =
              (st.currentFrameIndex + (k + 1)) % MAX_FRAMES_IN_FLIGHT := by
            unfold MAX_FRAMES_IN_FLIGHT
            omega
          have hdef : (statesBefore { st with
              imagesInFlight := st.imagesInFlight.set bo.acquireImageIndex
                (some st.currentFrameIndex),
              hasActiveCommandBuffer := false,
              currentFrameIndex :=
                (st.currentFrameIndex + 1) % MAX_FRAMES_IN_FLIGHT }
              rest).getD k { st with
              imagesInFlight := st.imagesInFlight.set bo.acquireImageIndex
                (some st.currentFrameIndex),
              hasActiveCommandBuffer := false,
              currentFrameIndex :=
                (st.currentFrameIndex + 1) % MAX_FRAMES_IN_FLIGHT } =
              (statesBefore { st with
              imagesInFlight := st.imagesInFlight.set bo.acquireImageIndex
                (some st.currentFrameIndex),
              hasActiveCommandBuffer := false,
              currentFrameIndex :=
                (st.currentFrameIndex + 1) % MAX_FRAMES_IN_FLIGHT }
              rest).getD k st := by
            apply getD_default_irrel
            rw [statesBefore_length]
            exact hk'
          refine ⟨?_, ?_⟩
          · have h1eq := hrec.1
            simp only [List.getD_cons_succ]
            rw [h1eq]
            dsimp only
            unfold MAX_FRAMES_IN_FLIGHT at hidx ⊢
            omega
          · have h2eq := hrec.2
            rw [hmod2, hmod3, hdef] at h2eq
            simpa [statesBefore, hstep] using h2eq

/-- C9 counterexample: in a run of four fully successful begin/end cycles
acquiring images 0, 1, 2, 0 (three images, three frame slots), cycle 3 does
reuse slot 3 mod 3 = 0, but that slot's own fence (fence 0) is waited on
twice before the slot's command buffer is re-recorded — once by the
acquire-path wait and once by the image-ownership wait, since image 0 is
still owned by fence 0 — not exactly once as claimed. -/
theorem slot_fence_double_wait :
    (exRun.2.getD 3 (0, [])).1 = 3 % MAX_FRAMES_IN_FLIGHT ∧
    ((exRun.2.getD 3 (0, [])).2.count (Event.waitFence 0)) = 2 ∧
    (exRun.2.getD 3 (0, [])).2.getLast? =
      some (Event.beginCommandBuffer 0) := by
  decide

/-- C9 amended: for any run of N fully successful begin/end cycles starting
at frame index 0 with F = MAX_FRAMES_IN_FLIGHT = 3 slots, the slot used at
cycle k is k mod F, and that slot's own fence is waited on before the slot's
command buffer is re-recorded — exactly once, except that exactly one
further, redundant wait on the same fence occurs when the ownership table at
the cycle's start lists that very fence for the acquired image (then exactly
twice); the cycle's trace opens with the own-fence wait and closes with the
command-buffer re-record. -/
theorem frame_slot_rotation (st : EngineState)
    (os : List (BeginFrameOracle × EndFrameOracle))
    (h1 : st.initialized = true) (h2 : st.hasDevice = true)
    (h3 : st.hasSwapchain = true) (h4 : st.swapchainNeedsRecreate = false)
    (h5 : st.currentFrameIndex = 0) (hos : SuccessOracles os) :
    ∀ k, k < os.length →
      ((runFrames st os).2.getD k (0, [])).1 = k % MAX_FRAMES_IN_FLIGHT ∧
      CycleWaitsThenRecords ((runFrames st os).2.getD k (0, []))
        (if ((statesBefore st os).getD k st).imagesInFlight.getD
            ((os.getD k (exBeginOk 0, exEndOk)).1.acquireImageIndex) none =
            some (k % MAX_FRAMES_IN_FLIGHT)
          then 2 else 1) := by
  intro k hk
  have hidx : st.currentFrameIndex < MAX_FRAMES_IN_FLIGHT := by
    rw [h5]
    unfold MAX_FRAMES_IN_FLIGHT
    omega
  have := runFrames_slots os st h1 h2 h3 h4 hidx hos k hk
  rw [h5] at this
  simpa using this

/-- Witness for the amended C9: at cycle 3 of the four-cycle run the
ownership entry for the re-acquired image 0 is slot 0's own fence, so the
prescribed wait count evaluates to exactly two. -/
theorem frame_slot_rotation_witness :
    (((runFrames exStateReady exRunOracles).2.getD 3 (0, [])).1 =
      3 % MAX_FRAMES_IN_FLIGHT ∧
    CycleWaitsThenRecords
      ((runFrames exStateReady exRunOracles).2.getD 3 (0, []))
      (if ((statesBefore exStateReady exRunOracles).getD 3
            exStateReady).imagesInFlight.getD
          ((exRunOracles.getD 3 (exBeginOk 0, exEndOk)).1.acquireImageIndex)
          none = some (3 % MAX_FRAMES_IN_FLIGHT)
        then 2 else 1)) ∧
    ((statesBefore exStateReady exRunOracles).getD 3
        exStateReady).imagesInFlight.getD
      ((exRunOracles.getD 3 (exBeginOk 0, exEndOk)).1.acquireImageIndex)
      none = some (3 % MAX_FRAMES_IN_FLIGHT) :=
  ⟨frame_slot_rotation exStateReady exRunOracles rfl rfl rfl rfl rfl
    (by unfold SuccessOracles exRunOracles; decide) 3 (by decide),
   by decide⟩

end Boulder
